import Mathlib

/-!
Verification of the page-load benchmark scripts: a shallow embedding of the
byte-accounting response handler, the trial-result constructors, the metric
averaging routine, the per-site trial orchestration and the homepage-link
heuristic, together with theorems settling the specification claims.
-/

namespace PageBench

/-- JS runtime values stored in the metric records of the measurement
scripts: numbers are modelled as rationals, strings and booleans as
themselves, and `vundef` stands for reading an absent object property. -/
inductive Value where
  | vnum (q : ℚ)
  | vstr (s : String)
  | vbool (b : Bool)
  | vundef
deriving DecidableEq

/-- The N/A sentinel string. -/
def naV : Value := Value.vstr ("N/A")

/-- The DNF sentinel string. -/
def dnfV : Value := Value.vstr ("DNF")

/-- A parsed URL as the scripts read it through the platform URL class:
only the components they inspect (hostname and pathname) plus the scheme
needed to print the absolute form. -/
structure Url where
  scheme : String
  host : String
  pathname : String
deriving DecidableEq

/-- The origin of a URL, scheme plus host. -/
def Url.origin (u : Url) : String := u.scheme ++ "://" ++ u.host

/-- The absolute string form of a URL. -/
def Url.hrefStr (u : Url) : String := u.origin ++ u.pathname

/-- One network response as the response handler of getPageMetrics sees it:
its status code, the hostname of its own URL, the optional numeric
content-length header, the length of its body when the body can be
materialized (`none` when reading the body throws, as for redirect
responses), the current page URL (`none` while the page is still blank)
and the optional parsed Location header. -/
structure Response where
  status : Nat
  host : String
  contentLength : Option Nat
  bodyLen : Option Nat
  pageUrl : Option Url
  location : Option Url
deriving DecidableEq

/-- The mutable counters captured by the response handler closure of
getPageMetrics in the HAR-CSV variant, plus its already-redirected flag. -/
structure AccState where
  totalTransferredBytes : Nat
  totalSameOriginTransferredBytes : Nat
  totalCrossOriginTransferredBytes : Nat
  totalTransferredResources : Nat
  redirected : Bool
deriving DecidableEq

/-- All counters start at zero and the redirected flag starts false. -/
def initState : AccState := ⟨0, 0, 0, 0, false⟩

/-- The URL the redirect check inspects: the Location header while the
page is still blank, otherwise the current page URL; `none` when that
construction would throw. -/
def redirectTarget (r : Response) : Option Url :=
  match r.pageUrl with
  | some u => some u
  | none => r.location

/-- Add `n` bytes to the running total and to the origin bucket selected
by comparing the response hostname with the requested hostname. -/
def addBytes (url : Url) (s : AccState) (r : Response) (n : Nat) : AccState :=
  { s with
    totalTransferredBytes := s.totalTransferredBytes + n
    totalSameOriginTransferredBytes :=
      if r.host = url.host then s.totalSameOriginTransferredBytes + n
      else s.totalSameOriginTransferredBytes
    totalCrossOriginTransferredBytes :=
      if r.host = url.host then s.totalCrossOriginTransferredBytes
      else s.totalCrossOriginTransferredBytes + n }

/-- The byte-counting tail of the handler: skip responses outside the
status window, then take the content-length header if present, otherwise
the materialized body length (a body that cannot be materialized throws,
which the handler swallows, counting nothing), and finally bump the
resource counter. -/
def countBytes (url : Url) (s : AccState) (r : Response) : AccState :=
  if r.status < 200 ∨ 400 ≤ r.status then s
  else
    match r.contentLength with
    | some n =>
      let s2 := addBytes url s r n
      { s2 with totalTransferredResources := s2.totalTransferredResources + 1 }
    | none =>
      match r.bodyLen with
      | some n =>
        let s2 := addBytes url s r n
        { s2 with totalTransferredResources := s2.totalTransferredResources + 1 }
      | none => s

/-- The full response handler of getPageMetrics in the HAR-CSV variant:
first the redirect check (status 301 to 399, not yet redirected, target
pathname equal to the requested pathname and target hostname different
from the requested hostname resets all four counters and latches the
flag; a missing target makes the URL constructor throw, skipping the
response), then the byte counting on whatever state resulted. -/
def onResponse (url : Url) (s : AccState) (r : Response) : AccState :=
  if 301 ≤ r.status ∧ r.status ≤ 399 ∧ s.redirected = false then
    match redirectTarget r with
    | none => s
    | some t =>
      if t.pathname = url.pathname ∧ t.host ≠ url.host then
        countBytes url
          { totalTransferredBytes := 0
            totalSameOriginTransferredBytes := 0
            totalCrossOriginTransferredBytes := 0
            totalTransferredResources := 0
            redirected := true } r
      else countBytes url s r
  else countBytes url s r

/-- Run the handler over the responses observed during one visit. -/
def runResponses (url : Url) (rs : List Response) : AccState :=
  rs.foldl (onResponse url) initState

/-- The byte count the handler attributes to a response: the
content-length header when present, otherwise the body length. -/
def respBytes (r : Response) : Nat :=
  match r.contentLength with
  | some n => n
  | none => r.bodyLen.getD 0

/-- Total bytes of a response list. -/
def sumBytes (rs : List Response) : Nat := (rs.map respBytes).sum

/-- Bytes of the responses whose hostname matches the requested one. -/
def sameOriginBytes (url : Url) (rs : List Response) : Nat :=
  ((rs.filter (fun r => r.host = url.host)).map respBytes).sum

/-- Bytes of the responses whose hostname differs from the requested one. -/
def crossOriginBytes (url : Url) (rs : List Response) : Nat :=
  ((rs.filter (fun r => ¬r.host = url.host)).map respBytes).sum

/-- A plain successful response: a 2xx status and an available byte
source. -/
def plainSuccess (r : Response) : Prop :=
  200 ≤ r.status ∧ r.status ≤ 299 ∧ (r.contentLength.isSome ∨ r.bodyLen.isSome)

instance (r : Response) : Decidable (plainSuccess r) := by
  unfold plainSuccess; infer_instance

/-- The redirect shape the claims discuss: a 3xx response whose target
hostname differs from the requested hostname, with no countable payload
of its own. -/
def claimCrossRedirect (url : Url) (r : Response) : Prop :=
  300 ≤ r.status ∧ r.status ≤ 399 ∧
    ∃ t, redirectTarget r = some t ∧ t.host ≠ url.host

/-- A response that actually triggers the reset branch of the handler:
status 301 to 399, target present with the requested pathname and a
different hostname, and no countable payload. -/
def resettingRedirect (url : Url) (r : Response) : Prop :=
  301 ≤ r.status ∧ r.status ≤ 399 ∧ r.contentLength = none ∧ r.bodyLen = none ∧
    ∃ t, redirectTarget r = some t ∧ t.pathname = url.pathname ∧ t.host ≠ url.host

instance (url : Url) (r : Response) : Decidable (resettingRedirect url r) := by
  unfold resettingRedirect
  exact instDecidableAnd

/-- One trial result of getPageMetrics in the HAR variants. -/
structure TrialResult where
  pageLoadTime_ms : Value
  domContentLoadedTime_ms : Value
  totalTransferred_bytes : Value
  totalSameOriginTransferred_bytes : Value
  totalCrossOriginTransferred_bytes : Value
  totalTransferredResources : Value
  domElementCount : Value
  actualPage : Value
  otherPage : Value
deriving DecidableEq

/-- The page-derived measurements of a visit that reached the load
milestone. -/
structure SuccessData where
  pageLoadTime : ℚ
  domContentLoadedTime : ℚ
  domElementCount : Nat
  actualPage : String
  otherPage : String
deriving DecidableEq

/-- How one navigation attempt ended. -/
inductive NavOutcome where
  | success (d : SuccessData)
  | timeout
  | failure
deriving DecidableEq

/-- The result object built on the successful path of getPageMetrics. -/
def successResult (s : AccState) (d : SuccessData) : TrialResult :=
  { pageLoadTime_ms := Value.vnum d.pageLoadTime
    domContentLoadedTime_ms := Value.vnum d.domContentLoadedTime
    totalTransferred_bytes := Value.vnum s.totalTransferredBytes
    totalSameOriginTransferred_bytes := Value.vnum s.totalSameOriginTransferredBytes
    totalCrossOriginTransferred_bytes := Value.vnum s.totalCrossOriginTransferredBytes
    totalTransferredResources := Value.vnum s.totalTransferredResources
    domElementCount := Value.vnum d.domElementCount
    actualPage := Value.vstr d.actualPage
    otherPage := Value.vstr d.otherPage }

/-- The result object built in the timeout branch of the catch of
getPageMetrics in the HAR-CSV variant: DNF in the timing, DOM and URL
fields, but the byte counters accumulated so far in the byte fields. -/
def timeoutResult (s : AccState) : TrialResult :=
  { pageLoadTime_ms := dnfV
    domContentLoadedTime_ms := dnfV
    totalTransferred_bytes := Value.vnum s.totalTransferredBytes
    totalSameOriginTransferred_bytes := Value.vnum s.totalSameOriginTransferredBytes
    totalCrossOriginTransferred_bytes := Value.vnum s.totalCrossOriginTransferredBytes
    totalTransferredResources := Value.vnum s.totalTransferredResources
    domElementCount := dnfV
    actualPage := dnfV
    otherPage := dnfV }

/-- The result object built for every non-timeout failure: N/A in every
field. -/
def failureResult : TrialResult :=
  { pageLoadTime_ms := naV
    domContentLoadedTime_ms := naV
    totalTransferred_bytes := naV
    totalSameOriginTransferred_bytes := naV
    totalCrossOriginTransferred_bytes := naV
    totalTransferredResources := naV
    domElementCount := naV
    actualPage := naV
    otherPage := naV }

/-- The trial result getPageMetrics returns, as a function of the
accumulated counters and of how the navigation ended. -/
def getPageMetricsResult (s : AccState) : NavOutcome → TrialResult
  | NavOutcome.success d => successResult s d
  | NavOutcome.timeout => timeoutResult s
  | NavOutcome.failure => failureResult

/-- The nine fields of a trial result, in declaration order. -/
def TrialResult.fieldList (t : TrialResult) : List Value :=
  [t.pageLoadTime_ms, t.domContentLoadedTime_ms, t.totalTransferred_bytes,
   t.totalSameOriginTransferred_bytes, t.totalCrossOriginTransferred_bytes,
   t.totalTransferredResources, t.domElementCount, t.actualPage, t.otherPage]

/-- The value shapes the specification allows in a finished trial field:
a genuine number or one of the two sentinel strings. -/
def isTrialVal (v : Value) : Prop :=
  (∃ q : ℚ, v = Value.vnum q) ∨ v = naV ∨ v = dnfV

/-- The status value the individual-tries variant of index.js writes into
every metric column of a failed try: DNF for a timeout, otherwise N/A. -/
def errStatusValue (isTimeout : Bool) : Value :=
  if isTimeout then dnfV else naV

/-- The metric record of one try in the individual-tries variant. -/
structure IdxMetrics where
  domContentLoadedTime_ms : Value
  loadTime_ms : Value
  pageLoadApiTime_ms : Value
  domContentLoadedApiTime_ms : Value
  pageSize_Bytes : Value
  pageSize_MB : Value
  domElementCount : Value
deriving DecidableEq

/-- The record the individual-tries variant builds when a try throws. -/
def idxErrorMetrics (isTimeout : Bool) : IdxMetrics :=
  { domContentLoadedTime_ms := errStatusValue isTimeout
    loadTime_ms := errStatusValue isTimeout
    pageLoadApiTime_ms := errStatusValue isTimeout
    domContentLoadedApiTime_ms := errStatusValue isTimeout
    pageSize_Bytes := errStatusValue isTimeout
    pageSize_MB := errStatusValue isTimeout
    domElementCount := errStatusValue isTimeout }

/-- The seven fields of an index.js metric record. -/
def IdxMetrics.fieldList (m : IdxMetrics) : List Value :=
  [m.domContentLoadedTime_ms, m.loadTime_ms, m.pageLoadApiTime_ms,
   m.domContentLoadedApiTime_ms, m.pageSize_Bytes, m.pageSize_MB,
   m.domElementCount]

/-- The response handler of getPageLoadMetrics in index.js: one running
byte total, the same status window, content-length first and body length
as the fallback. -/
def idxOnResponse (total : Nat) (r : Response) : Nat :=
  if r.status < 200 ∨ 400 ≤ r.status then total
  else
    match r.contentLength with
    | some n => total + n
    | none =>
      match r.bodyLen with
      | some n => total + n
      | none => total

/-- A JS object holding per-try metrics, read by property name; absent
properties read as undefined. -/
def MetricRec := String → Value

/-- Two-decimal rounding, modelling the toFixed call applied to the mean
(exact rationals stand in for the floating point values). -/
def round2 (q : ℚ) : ℚ := (round (q * 100) : ℤ) / 100

/-- The numeric filter of calculateAverage: only genuine numbers pass. -/
def numValue : Value → Option ℚ
  | Value.vnum q => some q
  | _ => none

/-- calculateAverage from index.js: the link-found field aggregates to
whether the count of true values is positive; any other field maps the
records to the named metric, keeps the genuine numbers, and yields N/A
when none remain or the two-decimal mean otherwise. -/
def calculateAverage (metricsArray : List MetricRec) (metricName : String) : Value :=
  if metricName = "homepageLinkFound" then
    Value.vbool
      (decide (0 < (metricsArray.filter
        (fun m => decide (m metricName = Value.vbool true))).length))
  else
    let values := (metricsArray.map (fun m => m metricName)).filterMap numValue
    if values.length = 0 then naV
    else Value.vnum (round2 (values.sum / values.length))

/-- The aggregation contract as the specification words it: per numeric
field the arithmetic mean (kept to two decimals) over the trials whose
value is a genuine number, N/A when no trial has one, and for the
boolean link-found field true iff at least one trial has it true. -/
def aggregateSpec (metricsArray : List MetricRec) (metricName : String) : Value :=
  if metricName = "homepageLinkFound" then
    Value.vbool (metricsArray.any (fun m => decide (m metricName = Value.vbool true)))
  else
    let nums := metricsArray.filterMap (fun m => numValue (m metricName))
    if nums.isEmpty then naV
    else Value.vnum (round2 (nums.sum / nums.length))

/-- The record pushed by the combined-averages variant of index.js when
an initial-load try throws: only the error message is stored, every
metric property is absent. -/
def errorTrialRecord (msg : String) : MetricRec :=
  fun k => if k = "error" then Value.vstr msg else Value.vundef

/-- JS string startsWith: the pattern is a prefix of the character
sequence. -/
def jsStartsWith (s pre : String) : Bool := pre.data.isPrefixOf s.data

/-- The string content of a value; the orchestration code only ever
applies it to string-valued fields. -/
def Value.asString : Value → String
  | Value.vstr s => s
  | _ => ""

/-- The secondary URL join of loadPages in the HAR-CSV variant: an href
that already starts with http is used as is; otherwise it is appended to
the resolved page URL, after removing one leading slash. -/
def joinOtherPage (actualPage otherPage : String) : String :=
  if jsStartsWith otherPage ("http") then otherPage
  else actualPage ++ (if jsStartsWith otherPage ("/") then otherPage.drop 1 else otherPage)

/-- Split a character sequence at the first scheme separator, yielding
the scheme characters and the remainder. -/
def afterScheme : List Char → Option (List Char × List Char)
  | [] => none
  | c :: cs =>
    if c = ':' then
      match cs with
      | '/' :: '/' :: rest => some ([], rest)
      | _ => none
    else
      match afterScheme cs with
      | some (sch, rest) => some (c :: sch, rest)
      | none => none

/-- The host characters of a URL remainder: everything before the first
slash. -/
def hostPart : List Char → List Char
  | [] => []
  | c :: cs => if c = '/' then [] else c :: hostPart cs

/-- The path characters of a URL remainder: everything from the first
slash on. -/
def pathPart : List Char → List Char
  | [] => []
  | c :: cs => if c = '/' then c :: cs else pathPart cs

/-- Modelled from the spec: the origin (scheme and host) of an absolute
URL string, as the platform URL class reports it. -/
def urlOrigin (s : String) : String :=
  match afterScheme s.data with
  | some (sch, rest) => String.mk sch ++ "://" ++ String.mk (hostPart rest)
  | none => s

/-- Modelled from the spec: resolving a detected href to a well-formed
absolute URL addressing the intended path, for the href shapes the claim
mentions: an href with an absolute scheme is used as is, and a
root-relative href is joined to the origin of the base URL. -/
def specResolveHref (href base : String) : String :=
  if jsStartsWith href ("http") then href else urlOrigin base ++ href

/-- The per-site record assembled by loadPages. -/
structure PageData where
  siteUrl : String
  actualSiteUrl : Value
  metrics : List TrialResult
  otherMetrics : List TrialResult
deriving DecidableEq

/-- One site of loadPages in the HAR-CSV variant: the three primary trial
results, the gate on the detected link of the third trial, the secondary
URL join, three secondary trials when the gate passes, and the assembly
of the output record (whose resolved URL comes from the first trial).
runSecondary gives the trial result of the k-th visit of a secondary
URL. -/
def processSite (site : String) (m1 m2 m3 : TrialResult)
    (runSecondary : String → Nat → TrialResult) : PageData :=
  let otherMetrics :=
    if m3.otherPage ≠ naV ∧ m3.otherPage ≠ dnfV then
      let u := joinOtherPage m3.actualPage.asString m3.otherPage.asString
      [runSecondary u 1, runSecondary u 2, runSecondary u 3]
    else []
  { siteUrl := site
    actualSiteUrl := m1.actualPage
    metrics := [m1, m2, m3]
    otherMetrics := otherMetrics }

/-- The twelve other-page cells of one CSV row, each guarded by the
length of otherMetrics exactly as in the row template. -/
def csvOtherCells (pd : PageData) : List Value :=
  [if 0 < pd.otherMetrics.length then (pd.otherMetrics.getD 0 failureResult).actualPage else naV,
   if 0 < pd.otherMetrics.length then (pd.otherMetrics.getD 0 failureResult).domContentLoadedTime_ms else naV,
   if 0 < pd.otherMetrics.length then (pd.otherMetrics.getD 1 failureResult).domContentLoadedTime_ms else naV,
   if 0 < pd.otherMetrics.length then (pd.otherMetrics.getD 2 failureResult).domContentLoadedTime_ms else naV,
   if 0 < pd.otherMetrics.length then (pd.otherMetrics.getD 0 failureResult).pageLoadTime_ms else naV,
   if 0 < pd.otherMetrics.length then (pd.otherMetrics.getD 1 failureResult).pageLoadTime_ms else naV,
   if 0 < pd.otherMetrics.length then (pd.otherMetrics.getD 2 failureResult).pageLoadTime_ms else naV,
   if 0 < pd.otherMetrics.length then (pd.otherMetrics.getD 2 failureResult).totalTransferred_bytes else naV,
   if 0 < pd.otherMetrics.length then (pd.otherMetrics.getD 2 failureResult).totalSameOriginTransferred_bytes else naV,
   if 0 < pd.otherMetrics.length then (pd.otherMetrics.getD 2 failureResult).totalCrossOriginTransferred_bytes else naV,
   if 0 < pd.otherMetrics.length then (pd.otherMetrics.getD 2 failureResult).totalTransferredResources else naV,
   if 0 < pd.otherMetrics.length then (pd.otherMetrics.getD 2 failureResult).domElementCount else naV]

/-- One homepage-navigation try record of the combined-averages variant
of index.js. -/
structure NavMetrics where
  homepageLinkFound : Value
  homepageLinkClickTime : Value
deriving DecidableEq

/-- The homepage-navigation trial loop of the combined-averages variant:
when no link was identified the three slots are filled with placeholder
records instead of running any navigation. -/
def homepageNavTrials (linkFoundOverall : Bool) (runTrial : Nat → NavMetrics) :
    List NavMetrics :=
  if linkFoundOverall then [runTrial 0, runTrial 1, runTrial 2]
  else List.replicate 3 ⟨Value.vbool false, naV⟩

/-- The directory part of a path, up to and including the last slash. -/
def dirOf (p : String) : String :=
  String.mk ((p.data.reverse.dropWhile (fun c => c ≠ '/')).reverse)

/-- The path component of the remainder of an absolute URL after its
scheme separator, defaulting to the root path. -/
def pathOfRest (rest : List Char) : String :=
  match pathPart rest with
  | [] => "/"
  | l => String.mk l

/-- Modelled from the spec: the resolution the platform URL class
performs against the page URL for the href shapes the heuristic meets: a
root-relative href replaces the path, an absolute href is parsed, and
any other href is resolved against the directory of the base path. -/
def resolveHref (base : Url) (href : String) : Url :=
  if jsStartsWith href ("/") then { base with pathname := href }
  else
    match afterScheme href.data with
    | some (sch, rest) =>
      { scheme := String.mk sch
        host := String.mk (hostPart rest)
        pathname := pathOfRest rest }
    | none => { base with pathname := dirOf base.pathname ++ href }

/-- The short-relative-path test of the link finder: root, at most one
path segment, or an index-like filename. -/
def isShortRelativePath (relativePath : String) : Bool :=
  relativePath == "/"
    || decide (((relativePath.splitOn ("/")).filter (fun p => !p.isEmpty)).length ≤ 1)
    || relativePath.endsWith ("/index.html")
    || relativePath.endsWith ("/home.html")

/-- The inner anchor loop of findHomepageLinkOnce over the anchors one
selector matched, carrying the found href and flag: an off-origin
resolution is skipped, a root href is accepted immediately and stops the
scan, an index filename is accepted and stops the scan unless a root
link is already held, and a short relative path is accepted only when
nothing is held yet, scanning on. -/
def scanAnchors (currentDomain : String) (pageUrl : Url) :
    List String → String × Bool → String × Bool
  | [], st => st
  | href :: rest, st =>
    let absoluteHref := (resolveHref pageUrl href).hrefStr
    if jsStartsWith absoluteHref currentDomain then
      if href = "/" then (absoluteHref, true)
      else if (href = "/index.html" ∨ href = "/home.html")
          ∧ (st.2 = false ∨ st.1 ≠ currentDomain ++ "/") then (absoluteHref, true)
      else
        let st2 :=
          if isShortRelativePath (resolveHref pageUrl href).pathname ∧ st.2 = false
          then (absoluteHref, true) else st
        scanAnchors currentDomain pageUrl rest st2
    else scanAnchors currentDomain pageUrl rest st

/-- The outer selector loop of findHomepageLinkOnce: each entry holds the
hrefs of the anchors one selector matched, in priority order; after a
selector with matches the loop stops as soon as a confident link (root
or index filename) is held. -/
def findLoop (currentDomain : String) (pageUrl : Url) :
    List (List String) → String × Bool → String × Bool
  | [], st => st
  | anchors :: restSel, st =>
    if 0 < anchors.length then
      let st2 := scanAnchors currentDomain pageUrl anchors st
      if st2.2 = true ∧ (st2.1 = currentDomain ++ "/"
          ∨ st2.1.endsWith ("/index.html") ∨ st2.1.endsWith ("/home.html")) then st2
      else findLoop currentDomain pageUrl restSel st2
    else findLoop currentDomain pageUrl restSel st

/-- The result of the link heuristic. -/
structure LinkResult where
  found : Bool
  href : String
deriving DecidableEq

/-- findHomepageLinkOnce from index.js, over the per-selector anchor
matches of the loaded page. -/
def findHomepageLinkOnce (currentDomain : String) (pageUrl : Url)
    (selectorMatches : List (List String)) : LinkResult :=
  let st := findLoop currentDomain pageUrl selectorMatches (("N/A"), false)
  { found := st.2, href := st.1 }

/-! Concrete inputs used by the example and witness theorems. -/

/-- The requested URL of the worked examples. -/
def url0 : Url := ⟨"https", "a.com", "/"⟩

/-- A 1000-byte same-origin success. -/
def rSame1000 : Response := ⟨200, "a.com", some 1000, none, some url0, none⟩

/-- A 2000-byte cross-origin success. -/
def rCross2000 : Response := ⟨200, "c.com", some 2000, none, some url0, none⟩

/-- A cross-host 3xx whose target pathname differs from the requested
pathname, so the handler does not reset. -/
def rRedirectOffPath : Response :=
  ⟨301, "a.com", none, none, some ⟨"https", "b.com", "/foo"⟩, none⟩

/-- A cross-host 3xx whose target pathname equals the requested pathname,
so the handler resets. -/
def rRedirectOnPath : Response :=
  ⟨301, "a.com", none, none, some ⟨"https", "b.com", "/"⟩, none⟩

/-- A 301 response carrying a content-length, same-origin target. -/
def r301Body : Response := ⟨301, "a.com", some 500, none, some url0, none⟩

/-- Trial records with values 100, 200 and DNF for every metric name. -/
def exTrials : List MetricRec :=
  [fun _ => Value.vnum 100, fun _ => Value.vnum 200, fun _ => dnfV]

/-- Trial records with only sentinel values. -/
def exTrialsSentinels : List MetricRec := [fun _ => naV, fun _ => dnfV]

/-- A third primary trial whose detected link is a genuine relative
href. -/
def thirdTrialEx : TrialResult :=
  successResult initState ⟨0, 0, 0, ("https://a.com/"), ("/about")⟩

/-! Helper lemmas shared by the claim theorems. -/

/-- On a plain successful response the handler adds the response bytes to
the total and to the matching origin bucket, bumps the resource counter
and leaves the redirected flag alone. -/
theorem onResponse_plain (url : Url) (s : AccState) (r : Response)
    (h : plainSuccess r) :
    onResponse url s r =
      ⟨s.totalTransferredBytes + respBytes r,
       s.totalSameOriginTransferredBytes + (if r.host = url.host then respBytes r else 0),
       s.totalCrossOriginTransferredBytes + (if r.host = url.host then 0 else respBytes r),
       s.totalTransferredResources + 1,
       s.redirected⟩ := by
  obtain ⟨h1, h2, h3⟩ := h
  have hstatus : ¬(301 ≤ r.status ∧ r.status ≤ 399 ∧ s.redirected = false) := by
    rintro ⟨ha, -, -⟩; omega
  have hfilter : ¬(r.status < 200 ∨ 400 ≤ r.status) := by omega
  rw [onResponse, if_neg hstatus, countBytes, if_neg hfilter]
  rcases hc : r.contentLength with - | n
  · rcases hb : r.bodyLen with - | m
    · rw [hc, hb] at h3; simp at h3
    · simp only [respBytes, hc, hb, addBytes, Option.getD_some]
      split_ifs with hh <;> simp [hh]
  · simp only [respBytes, hc, addBytes]
    split_ifs with hh <;> simp [hh]

/-- Folding the handler over plain successful responses accumulates the
byte sums, origin bucket sums and the response count, and preserves the
redirected flag. -/
theorem foldl_plain (url : Url) (rs : List Response)
    (h : ∀ r ∈ rs, plainSuccess r) (s : AccState) :
    rs.foldl (onResponse url) s =
      ⟨s.totalTransferredBytes + sumBytes rs,
       s.totalSameOriginTransferredBytes + sameOriginBytes url rs,
       s.totalCrossOriginTransferredBytes + crossOriginBytes url rs,
       s.totalTransferredResources + rs.length,
       s.redirected⟩ := by
  induction rs generalizing s with
  | nil =>
    cases s
    simp [sumBytes, sameOriginBytes, crossOriginBytes]
  | cons r rs ih =>
    simp only [List.foldl_cons]
    rw [onResponse_plain url s r (h r (by simp)),
      ih (fun x hx => h x (by simp [hx]))]
    simp only [sumBytes, sameOriginBytes, crossOriginBytes, List.filter_cons,
      List.map_cons, List.sum_cons, List.length_cons, decide_eq_true_eq,
      AccState.mk.injEq]
    split_ifs with hh <;>
      simp only [List.map_cons, List.sum_cons] <;>
      exact ⟨by omega, by omega, by omega, by omega, trivial⟩

/-- On a not-yet-redirected state, a response that satisfies the reset
condition clears all four counters, latches the flag, and contributes no
bytes of its own when it has neither content-length nor body. -/
theorem onResponse_reset (url : Url) (s : AccState) (r : Response)
    (hflag : s.redirected = false) (hr : resettingRedirect url r) :
    onResponse url s r = ⟨0, 0, 0, 0, true⟩ := by
  obtain ⟨ha, hb, hcl, hbl, t, ht, htp, hth⟩ := hr
  have hfilter : ¬(r.status < 200 ∨ 400 ≤ r.status) := by omega
  rw [onResponse, if_pos ⟨ha, hb, hflag⟩, ht]
  show (if t.pathname = url.pathname ∧ t.host ≠ url.host then
      countBytes url ⟨0, 0, 0, 0, true⟩ r else countBytes url s r)
    = ⟨0, 0, 0, 0, true⟩
  rw [if_pos ⟨htp, hth⟩]
  simp [countBytes, hcl, hbl, hfilter]

/-- Once the flag is latched, a later redirect-shaped response with no
countable payload leaves the state untouched. -/
theorem onResponse_after_flag (url : Url) (s : AccState) (r : Response)
    (hflag : s.redirected = true) (hr : resettingRedirect url r) :
    onResponse url s r = s := by
  obtain ⟨ha, hb, hcl, hbl, t, ht, htp, hth⟩ := hr
  have hfilter : ¬(r.status < 200 ∨ 400 ≤ r.status) := by omega
  have hcond : ¬(301 ≤ r.status ∧ r.status ≤ 399 ∧ s.redirected = false) := by
    rintro ⟨-, -, hf⟩; rw [hflag] at hf; cases hf
  rw [onResponse, if_neg hcond]
  simp [countBytes, hcl, hbl, hfilter]

/-- C1: over one page visit whose observed responses are all successful
with an available byte source, the byte accountant classifies each
response by comparing its hostname with the starting URL hostname and
ends with the running total equal to the byte sum (content-length when
present, otherwise body length), the same-origin and cross-origin
buckets holding the sums of the matching responses, and the resource
counter equal to the number of responses. -/
theorem byte_accountant_success_totals (url : Url) (rs : List Response)
    (h : ∀ r ∈ rs, plainSuccess r) :
    runResponses url rs =
      ⟨sumBytes rs, sameOriginBytes url rs, crossOriginBytes url rs,
       rs.length, false⟩ := by
  rw [runResponses, foldl_plain url rs h initState]
  simp [initState]

/-- Witness for C1 at the worked example: a 1000-byte same-origin
response followed by a 2000-byte cross-origin response yields total
3000, same-origin 1000, cross-origin 2000 and count 2. -/
theorem byte_accountant_success_totals_witness :
    runResponses url0 [rSame1000, rCross2000] = ⟨3000, 1000, 2000, 2, false⟩ :=
  (byte_accountant_success_totals url0 [rSame1000, rCross2000]
    (by decide)).trans (by decide)

/-- C2 counterexample: the middle response is a 3xx whose target hostname
differs from the requested hostname, yet the counters are not reset: the
run ends with total 3000, same-origin 1000 and count 2 rather than the
reset outcome the claim predicts, because the handler additionally
requires the target pathname to equal the requested pathname. -/
theorem redirect_reset_counterexample :
    claimCrossRedirect url0 rRedirectOffPath ∧
    runResponses url0 [rSame1000, rRedirectOffPath, rCross2000]
      = ⟨3000, 1000, 2000, 2, false⟩ ∧
    runResponses url0 [rSame1000, rRedirectOffPath, rCross2000]
      ≠ ⟨2000, 0, 2000, 1, true⟩ := by
  refine ⟨⟨by decide, by decide, ⟨"https", "b.com", "/foo"⟩, rfl, by decide⟩,
    by decide, by decide⟩

/-- C2 amended: the reset fires when a response with status 301 to 399 is
observed before any reset, whose redirect target (the Location header
while the page is blank, otherwise the page URL) has the requested
pathname and a hostname different from the requested one; it then clears
all four counters and latches the flag, so a later redirect of the same
shape does not reset again, and successful responses observed after the
reset accumulate normally. -/
theorem redirect_reset_amended (url : Url) (rs1 rs2 rs3 : List Response)
    (r r2 : Response)
    (h1 : ∀ x ∈ rs1, plainSuccess x) (hr : resettingRedirect url r)
    (h2 : ∀ x ∈ rs2, plainSuccess x) (hr2 : resettingRedirect url r2)
    (h3 : ∀ x ∈ rs3, plainSuccess x) :
    runResponses url (rs1 ++ r :: (rs2 ++ r2 :: rs3)) =
      ⟨sumBytes rs2 + sumBytes rs3,
       sameOriginBytes url rs2 + sameOriginBytes url rs3,
       crossOriginBytes url rs2 + crossOriginBytes url rs3,
       rs2.length + rs3.length, true⟩ := by
  rw [runResponses, List.foldl_append, List.foldl_cons,
    foldl_plain url rs1 h1 initState,
    onResponse_reset url _ r rfl hr,
    List.foldl_append, List.foldl_cons,
    foldl_plain url rs2 h2 _,
    onResponse_after_flag url _ r2 rfl hr2,
    foldl_plain url rs3 h3 _]
  simp [Nat.add_assoc]

/-- Witness for C2 amended at the worked example: 1000 same-origin, then
a pathname-preserving cross-host redirect, then 2000 cross-origin (and a
second redirect that must not reset again) yields total 2000, same 0,
cross 2000, count 1. -/
theorem redirect_reset_amended_witness :
    runResponses url0 [rSame1000, rRedirectOnPath, rCross2000, rRedirectOnPath]
      = ⟨2000, 0, 2000, 1, true⟩ :=
  (redirect_reset_amended url0 [rSame1000] [rCross2000] [] rRedirectOnPath
    rRedirectOnPath (by decide)
    ⟨by decide, by decide, rfl, rfl, ⟨"https", "b.com", "/"⟩, rfl, by decide, by decide⟩
    (by decide)
    ⟨by decide, by decide, rfl, rfl, ⟨"https", "b.com", "/"⟩, rfl, by decide, by decide⟩
    (by decide)).trans (by decide)

/-- C3 counterexample: a trial that times out with 1000 bytes already
accumulated returns a result whose byte field holds the number 1000, not
the DNF sentinel, so not every field of a timeout result is DNF. -/
theorem trial_sentinel_counterexample :
    (getPageMetricsResult ⟨1000, 1000, 0, 1, false⟩
        NavOutcome.timeout).totalTransferred_bytes = Value.vnum 1000 ∧
    (getPageMetricsResult ⟨1000, 1000, 0, 1, false⟩
        NavOutcome.timeout).totalTransferred_bytes ≠ dnfV := by
  constructor
  · show Value.vnum ((1000 : Nat) : ℚ) = Value.vnum 1000
    norm_num
  · decide

/-- C3 amended: on a timeout the HAR-CSV variant returns DNF in the
timing, DOM-count and URL fields but keeps the accumulated byte counters
in the byte fields; on any other failure every field is the N/A
sentinel; and in the individual-tries variant of index.js every metric
field of a failed try holds the single status sentinel, DNF for a
timeout and N/A otherwise. -/
theorem trial_sentinel_amended (s : AccState) (b : Bool) :
    ((getPageMetricsResult s NavOutcome.timeout).pageLoadTime_ms = dnfV
      ∧ (getPageMetricsResult s NavOutcome.timeout).domContentLoadedTime_ms = dnfV
      ∧ (getPageMetricsResult s NavOutcome.timeout).domElementCount = dnfV
      ∧ (getPageMetricsResult s NavOutcome.timeout).actualPage = dnfV
      ∧ (getPageMetricsResult s NavOutcome.timeout).otherPage = dnfV
      ∧ (getPageMetricsResult s NavOutcome.timeout).totalTransferred_bytes
          = Value.vnum s.totalTransferredBytes
      ∧ (getPageMetricsResult s NavOutcome.timeout).totalSameOriginTransferred_bytes
          = Value.vnum s.totalSameOriginTransferredBytes
      ∧ (getPageMetricsResult s NavOutcome.timeout).totalCrossOriginTransferred_bytes
          = Value.vnum s.totalCrossOriginTransferredBytes
      ∧ (getPageMetricsResult s NavOutcome.timeout).totalTransferredResources
          = Value.vnum s.totalTransferredResources)
    ∧ (∀ v ∈ (getPageMetricsResult s NavOutcome.failure).fieldList, v = naV)
    ∧ (∀ v ∈ (idxErrorMetrics b).fieldList, v = errStatusValue b) := by
  refine ⟨⟨rfl, rfl, rfl, rfl, rfl, rfl, rfl, rfl, rfl⟩, ?_, ?_⟩
  · intro v hv
    simp only [getPageMetricsResult, failureResult, TrialResult.fieldList,
      List.mem_cons, List.not_mem_nil, or_false] at hv
    rcases hv with h | h | h | h | h | h | h | h | h <;> exact h
  · intro v hv
    simp only [idxErrorMetrics, IdxMetrics.fieldList,
      List.mem_cons, List.not_mem_nil, or_false] at hv
    rcases hv with h | h | h | h | h | h | h <;> exact h

/-- Witness for C3 amended: a non-timeout failure trial reports N/A in
its byte field. -/
theorem trial_sentinel_amended_witness :
    (getPageMetricsResult initState NavOutcome.failure).totalTransferred_bytes
      = naV :=
  (trial_sentinel_amended initState false).2.1
    ((getPageMetricsResult initState NavOutcome.failure).totalTransferred_bytes)
    (by simp [TrialResult.fieldList])

/-- C4: the status filter keeps every response with status 200 to 399,
so a 301 redirect response that carries a content-length of 500 has its
bytes added and the resource counter bumped, in the HAR-CSV handler and
in the index.js handler alike, although 301 is not a 2xx success status
(the filter contradicts the code comment that only HTTP 2xx responses
are counted). -/
theorem redirect_response_counted_codebug :
    runResponses url0 [r301Body] = ⟨500, 500, 0, 1, false⟩ ∧
    idxOnResponse 0 r301Body = 500 ∧
    ¬(200 ≤ r301Body.status ∧ r301Body.status ≤ 299) := by
  refine ⟨by decide, by decide, by decide⟩

/-- C5: calculateAverage agrees with the specification contract on every
input: for the link-found field it returns true iff at least one trial
has it true, and for any other field it returns the two-decimal
arithmetic mean of the genuine numeric values and the N/A sentinel when
no trial has a numeric value; on the worked examples the values 100, 200
and DNF average to 150 and a sentinel-only list yields N/A. -/
theorem calculate_average_matches_spec :
    (∀ (arr : List MetricRec) (name : String),
        calculateAverage arr name = aggregateSpec arr name) ∧
    calculateAverage exTrials ("loadTime_ms") = Value.vnum 150 ∧
    calculateAverage exTrialsSentinels ("loadTime_ms") = naV := by
  refine ⟨?_, ?_, ?_⟩
  · intro arr name
    unfold calculateAverage aggregateSpec
    by_cases hn : name = "homepageLinkFound"
    · subst hn
      rw [if_pos rfl, if_pos rfl, Value.vbool.injEq, Bool.eq_iff_iff]
      simp only [decide_eq_true_eq, List.length_pos, ne_eq,
        List.filter_eq_nil_iff, List.any_eq_true, decide_eq_true_eq]
      push_neg
      tauto
    · rw [if_neg hn, if_neg hn, List.filterMap_map]
      simp [List.isEmpty_iff, List.length_eq_zero, Function.comp_def]
  · simp [calculateAverage, exTrials, numValue, dnfV]
    norm_num [round2]
  · simp [calculateAverage, exTrialsSentinels, numValue, dnfV, naV]

/-- C6: the three secondary trials run iff the detected link of the
third primary trial is neither the N/A nor the DNF sentinel; when it is
a sentinel the secondary list stays empty and every other-page cell of
the CSV row holds the N/A sentinel; and in the combined-averages variant
of index.js, when no link was identified the three navigation slots are
filled with placeholder records holding found false and click time
N/A. -/
theorem secondary_trials_gate (site : String) (m1 m2 m3 : TrialResult)
    (runSec : String → Nat → TrialResult) :
    ((processSite site m1 m2 m3 runSec).otherMetrics ≠ [] ↔
      (m3.otherPage ≠ naV ∧ m3.otherPage ≠ dnfV)) ∧
    ((m3.otherPage = naV ∨ m3.otherPage = dnfV) →
      (processSite site m1 m2 m3 runSec).otherMetrics = [] ∧
      csvOtherCells (processSite site m1 m2 m3 runSec)
        = List.replicate 12 naV) ∧
    (∀ runTrial, homepageNavTrials false runTrial
      = List.replicate 3 ⟨Value.vbool false, naV⟩) := by
  refine ⟨?_, ?_, fun runTrial => by simp [homepageNavTrials]⟩
  · by_cases hg : m3.otherPage ≠ naV ∧ m3.otherPage ≠ dnfV
    · simp [processSite, hg]
    · simp only [processSite, if_neg hg, ne_eq, not_true_eq_false]
      simp [hg]
  · intro h
    have hg : ¬(m3.otherPage ≠ naV ∧ m3.otherPage ≠ dnfV) := by
      rcases h with h | h <;> simp [h]
    constructor
    · simp [processSite, hg]
    · simp [csvOtherCells, processSite, hg, List.replicate]

/-- Witness for C6: with a sentinel detected link in the third trial, no
secondary trials run and the other-page CSV cells are all N/A. -/
theorem secondary_trials_gate_witness :
    csvOtherCells (processSite ("https://a.com") failureResult failureResult
        failureResult (fun _ _ => failureResult)) = List.replicate 12 naV :=
  ((secondary_trials_gate ("https://a.com") failureResult failureResult
      failureResult (fun _ _ => failureResult)).2.1 (Or.inl rfl)).2

/-- C7 counterexample: a root-relative detected link joined against a
resolved page URL with a non-root path is mangled by string
concatenation: the result glues the path of the detected href onto the
base path instead of addressing the intended path that URL resolution
would produce. -/
theorem secondary_link_join_counterexample :
    joinOtherPage ("https://example.com/home.html") ("/about.html")
      = ("https://example.com/home.htmlabout.html") ∧
    specResolveHref ("/about.html") ("https://example.com/home.html")
      = ("https://example.com/about.html") ∧
    joinOtherPage ("https://example.com/home.html") ("/about.html")
      ≠ specResolveHref ("/about.html") ("https://example.com/home.html") := by
  refine ⟨by decide, by decide, by decide⟩

/-- C7 amended: an href already starting with http is used as is; a
root-relative href is appended to the resolved base after dropping its
leading slash, which equals the intended absolute resolution exactly
when the resolved base is the site origin followed by a single slash, as
in the worked example; any other href is appended unchanged. -/
theorem secondary_link_join_amended :
    (∀ base other, jsStartsWith other ("http") = true →
      joinOtherPage base other = other) ∧
    (∀ base other, jsStartsWith other ("http") = false →
      jsStartsWith other ("/") = true →
      joinOtherPage base other = base ++ other.drop 1) ∧
    (∀ base other, jsStartsWith other ("http") = false →
      jsStartsWith other ("/") = false →
      joinOtherPage base other = base ++ other) ∧
    joinOtherPage ("https://example.com/") ("/about.html")
      = specResolveHref ("/about.html") ("https://example.com/") := by
  refine ⟨?_, ?_, ?_, by decide⟩
  · intro base other h; simp [joinOtherPage, h]
  · intro base other h h2; simp [joinOtherPage, h, h2]
  · intro base other h h2; simp [joinOtherPage, h, h2]

/-- Witness for C7 amended: an absolute href is used unchanged, and a
root-relative href against a root base is appended with the slash
dropped. -/
theorem secondary_link_join_amended_witness :
    joinOtherPage ("https://a.com/") ("https://b.com/x") = ("https://b.com/x") ∧
    joinOtherPage ("https://a.com/") ("/about") = ("https://a.com/") ++ ("/about").drop 1 :=
  ⟨secondary_link_join_amended.1 ("https://a.com/") ("https://b.com/x") (by decide),
   secondary_link_join_amended.2.1 ("https://a.com/") ("/about") (by decide) (by decide)⟩

/-- C8 counterexample: the error record the combined-averages variant
pushes for a failed try holds no metric properties at all, so reading a
metric field yields undefined, which is neither a number nor one of the
two sentinels. -/
theorem trial_fields_counterexample :
    errorTrialRecord ("boom") ("domContentLoadedTime") = Value.vundef ∧
    ¬isTrialVal (errorTrialRecord ("boom") ("domContentLoadedTime")) := by
  constructor
  · rfl
  · intro h
    rcases h with ⟨q, hq⟩ | h | h
    · simp [errorTrialRecord] at hq
    · simp [errorTrialRecord, naV] at h
    · simp [errorTrialRecord, dnfV] at h

/-- C8 amended: in the HAR-CSV variant every field of a timeout or
failure trial result is a number or a sentinel, and in the
individual-tries variant every metric field of a failed try is one of
the two sentinels; but in the combined-averages variant an errored try
stores only the error message and every metric property is absent. -/
theorem trial_fields_amended (s : AccState) (b : Bool) (msg k : String) :
    (∀ v ∈ (getPageMetricsResult s NavOutcome.timeout).fieldList, isTrialVal v) ∧
    (∀ v ∈ (getPageMetricsResult s NavOutcome.failure).fieldList, isTrialVal v) ∧
    (∀ v ∈ (idxErrorMetrics b).fieldList, isTrialVal v) ∧
    (k ≠ ("error") → errorTrialRecord msg k = Value.vundef) := by
  refine ⟨?_, ?_, ?_, fun hk => by simp [errorTrialRecord, hk]⟩
  · intro v hv
    simp only [getPageMetricsResult, timeoutResult, TrialResult.fieldList,
      List.mem_cons, List.not_mem_nil, or_false] at hv
    rcases hv with h | h | h | h | h | h | h | h | h <;>
      subst h <;> simp [isTrialVal]
  · intro v hv
    simp only [getPageMetricsResult, failureResult, TrialResult.fieldList,
      List.mem_cons, List.not_mem_nil, or_false] at hv
    rcases hv with h | h | h | h | h | h | h | h | h <;>
      subst h <;> simp [isTrialVal]
  · intro v hv
    simp only [idxErrorMetrics, IdxMetrics.fieldList, errStatusValue,
      List.mem_cons, List.not_mem_nil, or_false] at hv
    rcases hv with h | h | h | h | h | h | h <;>
      subst h <;> cases b <;> simp [isTrialVal]

/-- Witness for C8 amended: reading an ordinary metric name from the
error record yields undefined. -/
theorem trial_fields_amended_witness :
    errorTrialRecord ("boom") ("loadTime_ms") = Value.vundef :=
  (trial_fields_amended initState false ("boom") ("loadTime_ms")).2.2.2 (by decide)

/-- C10: the assembled site record takes its resolved URL from the first
primary trial while the secondary-trial gate reads the third trial, so
when the first trial failed with N/A and the third trial detected a
genuine link, the record reports N/A as the resolved URL even though
secondary trials ran. -/
theorem pagedata_resolved_url_from_first_trial (site : String)
    (m1 m2 m3 : TrialResult) (runSec : String → Nat → TrialResult)
    (h1 : m1.actualPage = naV)
    (h2 : m3.otherPage ≠ naV) (h3 : m3.otherPage ≠ dnfV) :
    (processSite site m1 m2 m3 runSec).actualSiteUrl = m1.actualPage ∧
    (processSite site m1 m2 m3 runSec).actualSiteUrl = naV ∧
    (processSite site m1 m2 m3 runSec).otherMetrics ≠ [] := by
  refine ⟨rfl, h1, ?_⟩
  simp [processSite, h2, h3]

/-- Witness for C10: a failed first trial and a third trial that found a
relative link give a record with N/A as the resolved URL and a non-empty
secondary list. -/
theorem pagedata_resolved_url_from_first_trial_witness :
    (processSite ("https://a.com") failureResult failureResult thirdTrialEx
      (fun _ _ => failureResult)).actualSiteUrl = naV :=
  (pagedata_resolved_url_from_first_trial ("https://a.com") failureResult
    failureResult thirdTrialEx (fun _ _ => failureResult) rfl
    (by decide) (by decide)).2.1

/-- A string is always a JS prefix of itself followed by anything. -/
theorem jsStartsWith_append (a b : String) : jsStartsWith (a ++ b) a = true := by
  simp [jsStartsWith]

/-- C9: on a page of the visit origin whose first selector (the exact
root-path pattern) matches exactly one anchor, with href the root path,
the link finder accepts it immediately: it returns found with the origin
followed by a slash, and the result does not depend on what any
lower-priority selector would match. -/
theorem link_heuristic_root_anchor (u : Url) (rest : List (List String)) :
    findHomepageLinkOnce u.origin u ([("/")] :: rest)
      = ⟨true, u.origin ++ "/"⟩ := by
  have habs : (resolveHref u ("/")).hrefStr = u.origin ++ "/" := rfl
  have hscan : scanAnchors u.origin u [("/")] (("N/A"), false)
      = (u.origin ++ "/", true) := by
    simp only [scanAnchors, habs, jsStartsWith_append, if_true]
  have hloop : findLoop u.origin u ([("/")] :: rest) (("N/A"), false)
      = (u.origin ++ "/", true) := by
    simp only [findLoop]
    rw [if_pos (by simp), hscan, if_pos ⟨rfl, Or.inl rfl⟩]
  simp [findHomepageLinkOnce, hloop]

end PageBench
